import Mathlib

/-!
Verification of the magma pipelined `EnforcementController`
(src/lte/gateway/python/magma/pipelined/app/enforcement.py) against its
natural-language specification.

The embedding translates the controller's pure logic into Lean:
the precedence-to-priority mapping, rule compilation into flow messages,
the dispatch/acknowledgement sequencer, the deactivation engine, and the
meter-statistics event handlers.  External collaborators (rule-number
registry, rule-version store, QoS manager, redirect manager, DPI app-id
resolver) are modelled as explicit function-valued fields of an
environment record, and side effects (flow deletions, collaborator
calls) as explicit effect lists.
-/

namespace Enforcement

/-! ### Constants

`flows.MINIMUM_PRIORITY` / `flows.MAXIMUM_PRIORITY` come from the
openflow `flows` module, which is not part of this repository snapshot.
Modelled from the spec: the valid device priority range spans the
OpenFlow priority space, and the source's own comment pins the derived
constants ("Effectively range is 3 -> 65535"), forcing
`MINIMUM_PRIORITY = 0` and `MAXIMUM_PRIORITY = 65535`. -/

def MINIMUM_PRIORITY : Nat := 0

def MAXIMUM_PRIORITY : Nat := 65535

/-- `ENFORCE_DROP_PRIORITY = flows.MINIMUM_PRIORITY + 1` -/
def ENFORCE_DROP_PRIORITY : Nat := MINIMUM_PRIORITY + 1

/-- For allowing unclassified flows for app/service type rules:
`UNCLASSIFIED_ALLOW_PRIORITY = ENFORCE_DROP_PRIORITY + 1` -/
def UNCLASSIFIED_ALLOW_PRIORITY : Nat := ENFORCE_DROP_PRIORITY + 1

/-- `MIN_ENFORCE_PROGRAMMED_FLOW = UNCLASSIFIED_ALLOW_PRIORITY + 1` -/
def MIN_ENFORCE_PROGRAMMED_FLOW : Nat := UNCLASSIFIED_ALLOW_PRIORITY + 1

/-- `MAX_ENFORCE_PRIORITY = flows.MAXIMUM_PRIORITY` -/
def MAX_ENFORCE_PRIORITY : Nat := MAXIMUM_PRIORITY

/-- `ENFORCE_PRIORITY_RANGE = MAX_ENFORCE_PRIORITY - MIN_ENFORCE_PROGRAMMED_FLOW` -/
def ENFORCE_PRIORITY_RANGE : Nat := MAX_ENFORCE_PRIORITY - MIN_ENFORCE_PROGRAMMED_FLOW

/-- `EnforcementController.get_of_priority` (enforcement.py lines 183-200):
precedence at or above `ENFORCE_PRIORITY_RANGE` clamps (with a warning) to
`MIN_ENFORCE_PROGRAMMED_FLOW`; otherwise `MAX_ENFORCE_PRIORITY - precedence`. -/
def get_of_priority (precedence : Nat) : Nat :=
  if precedence ≥ ENFORCE_PRIORITY_RANGE then
    MIN_ENFORCE_PROGRAMMED_FLOW
  else
    MAX_ENFORCE_PRIORITY - precedence

/-! ### Data model (lte.protos and collaborator types) -/

/-- `RuleModResult` from `lte.protos.pipelined_pb2`. -/
inductive RuleModResult
  | SUCCESS
  | FAILURE
  deriving DecidableEq, Repr

/-- `FlowDescription.Action` values used by the controller
(`flow.DENY`, else allow/pass). -/
inductive FlowAction
  | ALLOW
  | DENY
  deriving DecidableEq, Repr

/-- `flow.match.direction` values `UPLINK` / `DOWNLINK`. -/
inductive FlowDirection
  | UPLINK
  | DOWNLINK
  deriving DecidableEq, Repr

/-- `Direction.IN` / `Direction.OUT` from the openflow registers module. -/
inductive Direction
  | IN
  | OUT
  deriving DecidableEq, Repr

/-- The match predicate of a flow descriptor.  The raw 5-tuple-like fields
are opaque at this layer: `fields = none` models a match on which
`flow_match_to_magma_match` raises `FlowMatchError` (malformed match). -/
structure FlowMatchProto where
  direction : FlowDirection
  fields : Option Nat
  deriving DecidableEq, Repr

/-- One `FlowDescription` of a `PolicyRule`: match predicate plus action. -/
structure FlowDescription where
  «match» : FlowMatchProto
  action : FlowAction
  deriving DecidableEq, Repr

/-- `rule.redirect`: only the ENABLED test is consulted by this controller
(`rule.redirect.support == rule.redirect.ENABLED`). -/
structure RedirectInfo where
  support_enabled : Bool
  deriving DecidableEq, Repr

/-- `rule.qos`: guaranteed / maximum bitrates per direction. -/
structure FlowQos where
  max_req_bw_ul : Nat
  max_req_bw_dl : Nat
  gbr_ul : Nat
  gbr_dl : Nat
  deriving DecidableEq, Repr

/-- `apn_ambr`: aggregate maximum bitrate caps per direction. -/
structure AggregatedMaximumBitrate where
  max_bandwidth_ul : Nat
  max_bandwidth_dl : Nat
  deriving DecidableEq, Repr

/-- `PolicyRule` proto, restricted to the fields this controller reads.
`app_name` and `app_service_type` are proto enum values; `app_name = 0`
is the unset (falsy) value. -/
structure PolicyRule where
  id : String
  priority : Nat
  flow_list : List FlowDescription
  qos : FlowQos
  hard_timeout : Nat
  app_name : Nat
  app_service_type : Nat
  redirect : RedirectInfo
  deriving DecidableEq, Repr

/-- `QosInfo` passed to the QoS delegate. -/
structure QosInfo where
  gbr : Nat
  mbr : Nat
  deriving DecidableEq, Repr

/-- Exceptions crossing the modelled boundaries: `FlowMatchError` from
match conversion, `TypeError` from a Python call whose positional
arguments do not fit the callee's declared parameters. -/
inductive PyError
  | flowMatchError
  | typeError (fn : String)
  deriving DecidableEq, Repr

/-- A `MagmaMatch` as built during compilation: the converted opaque
payload, the session IP it was built against, the flow direction, and the
two fields the controller sets explicitly (`imsi`, `app_id`). -/
structure MagmaMatch where
  fields : Nat
  ip_addr : String
  direction : FlowDirection
  imsi : Option Nat := none
  app_id : Option Nat := none
  deriving DecidableEq, Repr

/-- OpenFlow actions the controller attaches: the `NXActionNote` rule-id
annotation, `NXActionRegLoad2` register loads, and an opaque QoS marking
action returned by the QoS delegate. -/
inductive OFAction
  | note (bytes : List Nat)
  | regLoad (dst : String) (value : Nat)
  | qosAction (tag : Nat)
  deriving DecidableEq, Repr

/-- Opaque QoS instruction returned by the QoS delegate. -/
inductive OFInstruction
  | qosInstruction (tag : Nat)
  deriving DecidableEq, Repr

/-- Modelled from the spec: `RULE_VERSION_REG` of the registers module
(not in this snapshot) — the correlation register holding the rule
version. -/
def RULE_VERSION_REG : String := "reg4"

/-- Modelled from the spec: `SCRATCH_REGS[1]` of the registers module
(not in this snapshot) — the scratch register used to exclude traffic
from statistics. -/
def SCRATCH_REG_1 : String := "reg6"

/-- Modelled from the spec: `IGNORE_STATS` of the enforcement-stats
module (not in this snapshot) — the marker value loaded into the scratch
register so passthrough traffic is excluded from statistics. -/
def IGNORE_STATS : Nat := 1

/-- Modelled from the spec: `UNCLASSIFIED_PROTO_ID` of the dpi module
(not in this snapshot) — the placeholder app id matched before DPI has
classified the traffic. -/
def UNCLASSIFIED_PROTO_ID : Nat := 0

/-- Modelled from the spec: `OVS_COOKIE_MATCH_ALL` of the flows module
(not in this snapshot) — the cookie mask selecting an exact cookie. -/
def OVS_COOKIE_MATCH_ALL : Nat := 0xffffffffffffffff

/-- Modelled from the spec: `encode_imsi` of the imsi module (not in this
snapshot) — an injective encoding of the subscriber identity into a
register-sized integer. -/
def encode_imsi (imsi : String) : Nat :=
  imsi.toList.foldl (fun a c => a * 256 + (c.toNat % 256) + 1) 1

/-- A compiled flow program handed to the message hub: either a drop flow
(`flows.get_add_drop_flow_msg`) or a resubmit-to-current-service flow
(`flows.get_add_resubmit_current_service_flow_msg`).  The flows module
(not in this snapshot) snapshots the match at message-construction time,
so each message carries its own match value. -/
inductive FlowMsg
  | addDrop (table : Nat) (m : MagmaMatch) (actions : List OFAction)
      (hard_timeout : Nat) (priority : Nat) (cookie : Nat)
  | addResubmit (table : Nat) (m : MagmaMatch) (actions : List OFAction)
      (instructions : List OFInstruction) (hard_timeout : Nat)
      (priority : Nat) (cookie : Nat) (resubmit_table : Nat)
  deriving DecidableEq, Repr

/-- `RedirectionManager.RedirectRequest` built by `_install_redirect_flow`. -/
structure RedirectRequest where
  imsi : String
  ip_addr : String
  rule : PolicyRule
  rule_num : Nat
  rule_version : Nat
  priority : Nat
  deriving DecidableEq, Repr

/-- The match used by the deactivation paths:
`MagmaMatch(eth_type=ETH_TYPE_IP, imsi=encode_imsi(imsi), **ip_match)`. -/
structure DelMatch where
  eth_type_ip : Bool
  imsi : Nat
  ip_addr : String
  direction : Direction
  deriving DecidableEq, Repr

/-- Observable side effects of the controller: flow deletions on the
device and collaborator invocations, plus log lines. -/
inductive Effect
  | deleteFlowByCookie (table : Nat) (m : DelMatch) (cookie : Nat)
      (cookie_mask : Nat)
  | deleteFlow (table : Nat) (m : DelMatch)
  | redirectCall (req : RedirectRequest)
  | redirectDeactivateRule (imsi : String) (rule_num : Nat)
  | redirectDeactivateSubscriber (imsi : String)
  | qosRemoveRule (imsi : String) (rule_num : Nat)
  | qosRemoveSubscriber (imsi : String)
  | logError (msg : String)
  deriving DecidableEq, Repr

/-- The controller's external collaborators and connection-scoped fields:
table numbers from the service manager, the rule-number registry
(get-or-create for activation, get-only for deactivation), the
rule-version store, the DPI app-id resolver, the QoS delegate's
`add_subscriber_qos`, and whether the redirect delegate raises
`RedirectException` on a given request. -/
structure Env where
  tbl_num : Nat
  enforcement_stats_scratch : Nat
  get_or_create_rule_num : String → Nat
  get_rule_num : String → Option Nat
  get_version : String → String → String → Nat
  get_app_id : Nat → Nat → Nat
  add_subscriber_qos : String → String → Option Nat → Nat → FlowDirection →
    Option QosInfo → Option OFAction × Option OFInstruction
  redirect_raises : RedirectRequest → Bool

/-! ### Rule compilation -/

/-- Modelled from the spec: `flow_match_to_magma_match` of the
policy-converters module (not in this snapshot) — builds the match
predicate from the descriptor plus the session IP, raising
`FlowMatchError` on invalid match fields. -/
def flow_match_to_magma_match (m : FlowMatchProto) (ip_addr : String) :
    Except PyError MagmaMatch :=
  match m.fields with
  | none => .error .flowMatchError
  | some d => .ok { fields := d, ip_addr := ip_addr, direction := m.direction }

/-- `_get_classify_rule_of_actions` (enforcement.py lines 363-409): the
rule-id note, then — unless the action is DENY — optional QoS
action/instruction from the delegate and the rule-number / rule-version
register loads. -/
def _get_classify_rule_of_actions (env : Env) (flow : FlowDescription)
    (rule_num : Nat) (imsi ip_addr : String)
    (apn_ambr : Option AggregatedMaximumBitrate) (qos : FlowQos)
    (rule_id : String) : List OFAction × List OFInstruction :=
  let of_note := OFAction.note (rule_id.toList.map Char.toNat)
  let actions := [of_note]
  if flow.action = FlowAction.DENY then
    (actions, [])
  else
    let mbr_ul := qos.max_req_bw_ul
    let mbr_dl := qos.max_req_bw_dl
    let d := flow.«match».direction
    let ambr : Option Nat :=
      match d, apn_ambr with
      | FlowDirection.UPLINK, some a => some a.max_bandwidth_ul
      | FlowDirection.DOWNLINK, some a => some a.max_bandwidth_dl
      | _, none => none
    let qos_info : Option QosInfo :=
      match d with
      | FlowDirection.UPLINK =>
        if mbr_ul ≠ 0 then some ⟨qos.gbr_ul, mbr_ul⟩ else none
      | FlowDirection.DOWNLINK =>
        if mbr_dl ≠ 0 then some ⟨qos.gbr_dl, mbr_dl⟩ else none
    -- `if qos_info or ambr:` — an integer ambr of 0 is falsy in Python
    let step :=
      if qos_info.isSome ∨ ambr.getD 0 ≠ 0 then
        let (action?, inst?) :=
          env.add_subscriber_qos imsi ip_addr ambr rule_num d qos_info
        (actions ++ action?.toList, inst?.toList)
      else
        (actions, [])
    let version := env.get_version imsi ip_addr rule_id
    (step.1 ++ [OFAction.regLoad "reg2" rule_num,
                OFAction.regLoad RULE_VERSION_REG version],
     step.2)

/-- `_get_classify_rule_flow_msgs` (enforcement.py lines 276-337): build
the match, resolve the actions; for an app-tagged rule first emit the
unclassified passthrough program, then narrow the match to the resolved
app id; emit a drop program for DENY, else a resubmit program. -/
def _get_classify_rule_flow_msgs (env : Env) (imsi ip_addr : String)
    (apn_ambr : Option AggregatedMaximumBitrate) (flow : FlowDescription)
    (rule_num priority : Nat) (qos : FlowQos) (hard_timeout : Nat)
    (rule_id : String) (app_name app_service_type : Nat) :
    Except PyError (List FlowMsg) :=
  match flow_match_to_magma_match flow.«match» ip_addr with
  | .error e => .error e
  | .ok fm =>
    let flow_match := { fm with imsi := some (encode_imsi imsi) }
    let acts_insts :=
      _get_classify_rule_of_actions env flow rule_num imsi ip_addr apn_ambr
        qos rule_id
    let flow_match_actions := acts_insts.1
    let instructions := acts_insts.2
    let msgs : List FlowMsg :=
      if app_name ≠ 0 then
        [FlowMsg.addResubmit env.tbl_num
          { flow_match with app_id := some UNCLASSIFIED_PROTO_ID }
          (flow_match_actions ++ [OFAction.regLoad SCRATCH_REG_1 IGNORE_STATS])
          [] hard_timeout UNCLASSIFIED_ALLOW_PRIORITY rule_num
          env.enforcement_stats_scratch]
      else []
    let flow_match2 :=
      if app_name ≠ 0 then
        { flow_match with
          app_id := some (env.get_app_id app_name app_service_type) }
      else flow_match
    if flow.action = FlowAction.DENY then
      .ok (msgs ++ [FlowMsg.addDrop env.tbl_num flow_match2
        flow_match_actions hard_timeout priority rule_num])
    else
      .ok (msgs ++ [FlowMsg.addResubmit env.tbl_num flow_match2
        flow_match_actions instructions hard_timeout priority rule_num
        env.enforcement_stats_scratch])

/-- The `for flow in rule.flow_list` loop of `_get_rule_match_flow_msgs`:
accumulate each descriptor's messages, propagating `FlowMatchError`. -/
def collect_classify_msgs (env : Env) (imsi ip_addr : String)
    (apn_ambr : Option AggregatedMaximumBitrate) (rule_num priority : Nat)
    (qos : FlowQos) (hard_timeout : Nat) (rule_id : String)
    (app_name app_service_type : Nat) :
    List FlowDescription → Except PyError (List FlowMsg)
  | [] => .ok []
  | f :: fs =>
    match _get_classify_rule_flow_msgs env imsi ip_addr apn_ambr f
      rule_num priority qos hard_timeout rule_id app_name app_service_type with
    | .error e => .error e
    | .ok ms =>
      match collect_classify_msgs env imsi ip_addr apn_ambr rule_num
        priority qos hard_timeout rule_id app_name app_service_type fs with
      | .error e => .error e
      | .ok rest => .ok (ms ++ rest)

/-- `_get_rule_match_flow_msgs` (enforcement.py lines 202-228): resolve
the rule number and priority, then compile every flow descriptor. -/
def _get_rule_match_flow_msgs (env : Env) (imsi ip_addr : String)
    (apn_ambr : Option AggregatedMaximumBitrate) (rule : PolicyRule) :
    Except PyError (List FlowMsg) :=
  let rule_num := env.get_or_create_rule_num rule.id
  let priority := get_of_priority rule.priority
  collect_classify_msgs env imsi ip_addr apn_ambr rule_num priority
    rule.qos rule.hard_timeout rule.id rule.app_name rule.app_service_type
    rule.flow_list

/-! ### Deactivation engine -/

/-- `_deactivate_flow_for_rule` (enforcement.py lines 430-453): resolve
the rule number (a miss is logged and skipped), delete both directions by
cookie, then delegate single-rule cleanup to the redirect and QoS
collaborators. -/
def _deactivate_flow_for_rule (env : Env) (imsi ip_addr rule_id : String) :
    List Effect :=
  match env.get_rule_num rule_id with
  | none => [Effect.logError "Could not find rule id"]
  | some num =>
    [Effect.deleteFlowByCookie env.tbl_num
       ⟨true, encode_imsi imsi, ip_addr, Direction.IN⟩ num
       OVS_COOKIE_MATCH_ALL,
     Effect.deleteFlowByCookie env.tbl_num
       ⟨true, encode_imsi imsi, ip_addr, Direction.OUT⟩ num
       OVS_COOKIE_MATCH_ALL,
     Effect.redirectDeactivateRule imsi num,
     Effect.qosRemoveRule imsi num]

/-- `_deactivate_flows_for_subscriber` (enforcement.py lines 455-468):
delete all programs of the (subscriber, session IP) pair by match in both
directions, then delegate session-wide cleanup to the redirect and QoS
collaborators. -/
def _deactivate_flows_for_subscriber (env : Env) (imsi ip_addr : String) :
    List Effect :=
  [Effect.deleteFlow env.tbl_num
     ⟨true, encode_imsi imsi, ip_addr, Direction.IN⟩,
   Effect.deleteFlow env.tbl_num
     ⟨true, encode_imsi imsi, ip_addr, Direction.OUT⟩,
   Effect.redirectDeactivateSubscriber imsi,
   Effect.qosRemoveSubscriber imsi]

/-- `deactivate_rules` (enforcement.py lines 470-499).  The first
precondition branch (`not self.init_finished`) returns
`RuleModResult.FAILURE`; the next two (`self._datapath is None`,
`not imsi`) return `None`; so the modelled return type is
`Option RuleModResult` paired with the produced effects. -/
def deactivate_rules (env : Env) (init_finished datapath_bound : Bool)
    (imsi ip_addr : String) (rule_ids : List String) :
    Option RuleModResult × List Effect :=
  if init_finished = false then
    (some RuleModResult.FAILURE, [Effect.logError "Pipelined is not initialized"])
  else if datapath_bound = false then
    (none, [Effect.logError "Datapath not initialized"])
  else if imsi = "" then
    (none, [Effect.logError "No subscriber specified"])
  else if rule_ids = [] then
    (none, _deactivate_flows_for_subscriber env imsi ip_addr)
  else
    (none, (rule_ids.map (_deactivate_flow_for_rule env imsi ip_addr)).flatten)

/-! ### Activation sequencer

The message channel returned by `MessageHub.send` is modelled as the list
of outcomes its successive `chan.get()` calls produce: a positive
acknowledgement, a negative acknowledgement carrying the device error
text, or a `MsgChannel.Timeout`.  An exhausted list means no further
message ever arrives, which `chan.get()` reports as a timeout. -/

/-- Outcome of one `chan.get()` call. -/
inductive ChanOutcome
  | ackOk
  | ackError (msg : String)
  | timeout
  deriving DecidableEq, Repr

/-- Python values crossing the modelled dynamic call. -/
inductive PyVal
  | str (s : String)
  deriving DecidableEq, Repr

/-- Python call semantics for `self._deactivate_flow_for_rule`: the
method declares exactly three required positional parameters after
`self` (`imsi`, `ip_addr`, `rule_id`); a call supplying any other number
of positional arguments raises `TypeError`. -/
def call_deactivate_flow_for_rule (env : Env) (args : List PyVal) :
    Except PyError (List Effect) :=
  match args with
  | [PyVal.str imsi, PyVal.str ip_addr, PyVal.str rule_id] =>
    .ok (_deactivate_flow_for_rule env imsi ip_addr rule_id)
  | _ => .error (PyError.typeError "_deactivate_flow_for_rule")

/-- The `fail` closure of `_wait_for_rule_responses` (enforcement.py
lines 260-265): log, invoke `self._deactivate_flow_for_rule(imsi,
rule.id)` — a call with two positional arguments — and return
`FAILURE`. -/
def wait_fail (env : Env) (imsi : String) (rule : PolicyRule) :
    Except PyError (RuleModResult × List Effect) :=
  match call_deactivate_flow_for_rule env
    [PyVal.str imsi, PyVal.str rule.id] with
  | .error e => .error e
  | .ok effs => .ok (RuleModResult.FAILURE, effs)

/-- The `for _ in range(len(rule.flow_list))` loop of
`_wait_for_rule_responses` (enforcement.py lines 267-274), consuming one
channel outcome per iteration.  Returns the aggregate result, the
unconsumed remainder of the channel, and the rollback effects. -/
def wait_loop (env : Env) (imsi : String) (rule : PolicyRule) :
    Nat → List ChanOutcome →
    Except PyError (RuleModResult × List ChanOutcome × List Effect)
  | 0, chan => .ok (RuleModResult.SUCCESS, chan, [])
  | Nat.succ _, [] =>
    match wait_fail env imsi rule with
    | .error e => .error e
    | .ok p => .ok (p.1, ([], p.2))
  | Nat.succ _, ChanOutcome.timeout :: rest =>
    match wait_fail env imsi rule with
    | .error e => .error e
    | .ok p => .ok (p.1, (rest, p.2))
  | Nat.succ _, ChanOutcome.ackError _ :: rest =>
    match wait_fail env imsi rule with
    | .error e => .error e
    | .ok p => .ok (p.1, (rest, p.2))
  | Nat.succ n, ChanOutcome.ackOk :: rest =>
    wait_loop env imsi rule n rest

/-- `_wait_for_rule_responses` (enforcement.py lines 259-274). -/
def _wait_for_rule_responses (env : Env) (imsi : String)
    (rule : PolicyRule) (chan : List ChanOutcome) :
    Except PyError (RuleModResult × List ChanOutcome × List Effect) :=
  wait_loop env imsi rule rule.flow_list.length chan

/-- Aggregate view of one activation call: the returned result, the flow
programs dispatched to the device, and the collaborator effects. -/
structure InstallResult where
  result : RuleModResult
  sent : List FlowMsg
  effects : List Effect
  deriving DecidableEq, Repr

/-- `_install_redirect_flow` (enforcement.py lines 339-361): build the
redirect request, invoke the redirect delegate once; a
`RedirectException` is logged and reported as `FAILURE`, otherwise
`SUCCESS`. -/
def _install_redirect_flow (env : Env) (imsi ip_addr : String)
    (rule : PolicyRule) : InstallResult :=
  let rule_num := env.get_or_create_rule_num rule.id
  let rule_version := env.get_version imsi ip_addr rule.id
  let priority := get_of_priority rule.priority
  let req : RedirectRequest :=
    ⟨imsi, ip_addr, rule, rule_num, rule_version, priority⟩
  if env.redirect_raises req then
    ⟨RuleModResult.FAILURE, [],
     [Effect.redirectCall req, Effect.logError "Redirect Exception"]⟩
  else
    ⟨RuleModResult.SUCCESS, [], [Effect.redirectCall req]⟩

/-- `_install_flow_for_rule` (enforcement.py lines 230-257): redirect
rules delegate to `_install_redirect_flow`; an empty flow list is a
compilation failure; a `FlowMatchError` during compilation is caught and
reported as `FAILURE`; otherwise the compiled messages are dispatched and
the sequencer awaits their acknowledgements. -/
def _install_flow_for_rule (env : Env) (imsi ip_addr : String)
    (apn_ambr : Option AggregatedMaximumBitrate) (rule : PolicyRule)
    (chan : List ChanOutcome) : Except PyError InstallResult :=
  if rule.redirect.support_enabled then
    .ok (_install_redirect_flow env imsi ip_addr rule)
  else if rule.flow_list = [] then
    .ok ⟨RuleModResult.FAILURE, [], [Effect.logError "The flow list is empty"]⟩
  else
    match _get_rule_match_flow_msgs env imsi ip_addr apn_ambr rule with
    | .error PyError.flowMatchError =>
      .ok ⟨RuleModResult.FAILURE, [], []⟩
    | .error e => .error e
    | .ok flow_adds =>
      match _wait_for_rule_responses env imsi rule chan with
      | .error e => .error e
      | .ok r => .ok ⟨r.1, flow_adds, r.2.2⟩

/-! ### Meter-statistics event handlers -/

/-- The bound QoS implementation; `isMeterManager` models
`isinstance(qos_impl, MeterManager)`. -/
structure QosImpl where
  isMeterManager : Bool
  deriving DecidableEq, Repr

/-- The `QosManager` bound on device connect; its `impl` may be absent. -/
structure QosMgr where
  impl : Option QosImpl
  deriving DecidableEq, Repr

/-- Delegations a meter-statistics event can produce. -/
inductive MeterDelegation
  | handleMeterConfigStats (body : Nat)
  | handleMeterFeatureStats (body : Nat)
  deriving DecidableEq, Repr

/-- `meter_config_stats_reply_handler` (enforcement.py lines 128-135):
no bound QoS manager, an absent implementation, or a non-meter
implementation drops the event; returns the (unchanged) manager and the
delegation performed, if any. -/
def meter_config_stats_reply_handler (qos_mgr : Option QosMgr)
    (body : Nat) : Option QosMgr × Option MeterDelegation :=
  match qos_mgr with
  | none => (none, none)
  | some m =>
    match m.impl with
    | none => (some m, none)
    | some impl =>
      if impl.isMeterManager then
        (some m, some (MeterDelegation.handleMeterConfigStats body))
      else
        (some m, none)

/-- `meter_features_stats_reply_handler` (enforcement.py lines 137-144):
same guard structure as the config-stats handler. -/
def meter_features_stats_reply_handler (qos_mgr : Option QosMgr)
    (body : Nat) : Option QosMgr × Option MeterDelegation :=
  match qos_mgr with
  | none => (none, none)
  | some m =>
    match m.impl with
    | none => (some m, none)
    | some impl =>
      if impl.isMeterManager then
        (some m, some (MeterDelegation.handleMeterFeatureStats body))
      else
        (some m, none)

/-! ### Small observation helpers and a concrete environment -/

/-- Decidable equality for `Except`, so that concrete runs can be settled
by `decide`. -/
def exceptDecEq {ε α : Type} [DecidableEq ε] [DecidableEq α] :
    (a b : Except ε α) → Decidable (a = b)
  | Except.ok a, Except.ok b =>
    if h : a = b then isTrue (by rw [h])
    else isFalse (fun hh => h (Except.ok.inj hh))
  | Except.error a, Except.error b =>
    if h : a = b then isTrue (by rw [h])
    else isFalse (fun hh => h (Except.error.inj hh))
  | Except.ok _, Except.error _ => isFalse (fun hh => Except.noConfusion hh)
  | Except.error _, Except.ok _ => isFalse (fun hh => Except.noConfusion hh)

instance {ε α : Type} [DecidableEq ε] [DecidableEq α] :
    DecidableEq (Except ε α) := exceptDecEq

/-- Whether a compiled message is a drop flow. -/
def isDropMsg : FlowMsg → Bool
  | FlowMsg.addDrop _ _ _ _ _ _ => true
  | FlowMsg.addResubmit _ _ _ _ _ _ _ _ => false

/-- The action list of a compiled message. -/
def msgActions : FlowMsg → List OFAction
  | FlowMsg.addDrop _ _ a _ _ _ => a
  | FlowMsg.addResubmit _ _ a _ _ _ _ _ => a

/-- The priority of a compiled message. -/
def msgPriority : FlowMsg → Nat
  | FlowMsg.addDrop _ _ _ _ p _ => p
  | FlowMsg.addResubmit _ _ _ _ _ p _ _ => p

/-- The match of a compiled message. -/
def msgMatch : FlowMsg → MagmaMatch
  | FlowMsg.addDrop _ m _ _ _ _ => m
  | FlowMsg.addResubmit _ m _ _ _ _ _ _ => m

/-- A concrete environment used by witnesses and counterexamples. -/
def env₀ : Env where
  tbl_num := 5
  enforcement_stats_scratch := 21
  get_or_create_rule_num := fun s => s.length + 7
  get_rule_num := fun s => if s = "r1" then some 8 else none
  get_version := fun _ _ _ => 2
  get_app_id := fun an ast => 100 * an + ast + 1
  add_subscriber_qos := fun _ _ _ _ _ qi =>
    match qi with
    | some q => (some (OFAction.qosAction q.mbr),
                 some (OFInstruction.qosInstruction q.gbr))
    | none => (some (OFAction.qosAction 0), none)
  redirect_raises := fun req => req.rule.id = "bad"

/-- A QoS proto with no bitrates set. -/
def qos₀ : FlowQos := ⟨0, 0, 0, 0⟩

/-- An ALLOW descriptor with a well-formed match. -/
def flow_allow : FlowDescription :=
  ⟨⟨FlowDirection.UPLINK, some 42⟩, FlowAction.ALLOW⟩

/-- A DENY descriptor with a well-formed match. -/
def flow_deny : FlowDescription :=
  ⟨⟨FlowDirection.UPLINK, some 42⟩, FlowAction.DENY⟩

/-- A descriptor whose match construction raises `FlowMatchError`. -/
def flow_bad : FlowDescription :=
  ⟨⟨FlowDirection.UPLINK, none⟩, FlowAction.ALLOW⟩

/-- A plain one-descriptor rule without app tag or redirect. -/
def rule₁ : PolicyRule :=
  ⟨"r1", 10, [flow_allow], qos₀, 0, 0, 0, ⟨false⟩⟩

/-- A one-descriptor rule carrying an app-classification tag. -/
def rule₂ : PolicyRule :=
  ⟨"r1", 10, [flow_allow], qos₀, 0, 1, 0, ⟨false⟩⟩

/-! ### Helper lemmas -/

/-- A descriptor whose match fields are absent makes compilation raise
`FlowMatchError`. -/
theorem classify_error_of_none (env : Env) (imsi ip_addr : String)
    (apn_ambr : Option AggregatedMaximumBitrate) (flow : FlowDescription)
    (rule_num priority : Nat) (qos : FlowQos) (ht : Nat) (rid : String)
    (an ast : Nat) (hf : flow.«match».fields = none) :
    _get_classify_rule_flow_msgs env imsi ip_addr apn_ambr flow rule_num
      priority qos ht rid an ast = .error PyError.flowMatchError := by
  unfold _get_classify_rule_flow_msgs flow_match_to_magma_match
  rw [hf]

/-- A descriptor whose match fields are present compiles successfully:
two messages when the rule is app-tagged, one otherwise. -/
theorem classify_ok_of_some (env : Env) (imsi ip_addr : String)
    (apn_ambr : Option AggregatedMaximumBitrate) (flow : FlowDescription)
    (rule_num priority : Nat) (qos : FlowQos) (ht : Nat) (rid : String)
    (an ast : Nat) (d : Nat) (hf : flow.«match».fields = some d) :
    ∃ ms, _get_classify_rule_flow_msgs env imsi ip_addr apn_ambr flow
        rule_num priority qos ht rid an ast = .ok ms ∧
      ms.length = (if an = 0 then 1 else 2) := by
  unfold _get_classify_rule_flow_msgs flow_match_to_magma_match
  rw [hf]
  by_cases ha : an = 0 <;>
    by_cases hd : flow.action = FlowAction.DENY <;>
      simp [ha, hd]

/-- Compilation of one descriptor can only fail with `FlowMatchError`. -/
theorem classify_error_eq (env : Env) (imsi ip_addr : String)
    (apn_ambr : Option AggregatedMaximumBitrate) (flow : FlowDescription)
    (rule_num priority : Nat) (qos : FlowQos) (ht : Nat) (rid : String)
    (an ast : Nat) (e : PyError)
    (h : _get_classify_rule_flow_msgs env imsi ip_addr apn_ambr flow
      rule_num priority qos ht rid an ast = .error e) :
    e = PyError.flowMatchError := by
  cases hfm : flow.«match».fields with
  | none =>
    rw [classify_error_of_none env imsi ip_addr apn_ambr flow rule_num
      priority qos ht rid an ast hfm] at h
    exact (Except.error.inj h).symm
  | some d =>
    obtain ⟨ms, hms, _⟩ := classify_ok_of_some env imsi ip_addr apn_ambr
      flow rule_num priority qos ht rid an ast d hfm
    rw [hms] at h
    cases h

/-- A successful compilation of one descriptor implies its match fields
were present. -/
theorem classify_fields_some_of_ok (env : Env) (imsi ip_addr : String)
    (apn_ambr : Option AggregatedMaximumBitrate) (flow : FlowDescription)
    (rule_num priority : Nat) (qos : FlowQos) (ht : Nat) (rid : String)
    (an ast : Nat) (ms : List FlowMsg)
    (h : _get_classify_rule_flow_msgs env imsi ip_addr apn_ambr flow
      rule_num priority qos ht rid an ast = .ok ms) :
    ∃ d, flow.«match».fields = some d := by
  cases hfm : flow.«match».fields with
  | none =>
    rw [classify_error_of_none env imsi ip_addr apn_ambr flow rule_num
      priority qos ht rid an ast hfm] at h
    cases h
  | some d => exact ⟨d, rfl⟩

/-- If any descriptor in the list has an absent match, the whole
compilation fails with `FlowMatchError` — never partially applied. -/
theorem collect_error_of_mem (env : Env) (imsi ip_addr : String)
    (apn_ambr : Option AggregatedMaximumBitrate) (rule_num priority : Nat)
    (qos : FlowQos) (ht : Nat) (rid : String) (an ast : Nat) :
    ∀ fs : List FlowDescription,
      (∃ f ∈ fs, f.«match».fields = none) →
      collect_classify_msgs env imsi ip_addr apn_ambr rule_num priority
        qos ht rid an ast fs = .error PyError.flowMatchError := by
  intro fs
  induction fs with
  | nil => rintro ⟨f, hf, _⟩; exact absurd hf (List.not_mem_nil f)
  | cons g fs ih =>
    rintro ⟨f, hf, hnone⟩
    unfold collect_classify_msgs
    rcases List.mem_cons.mp hf with h | h
    · subst h
      rw [classify_error_of_none env imsi ip_addr apn_ambr f rule_num
        priority qos ht rid an ast hnone]
    · cases hc : _get_classify_rule_flow_msgs env imsi ip_addr apn_ambr g
        rule_num priority qos ht rid an ast with
      | error e =>
        rw [classify_error_eq env imsi ip_addr apn_ambr g rule_num
          priority qos ht rid an ast e hc]
      | ok ms =>
        rw [ih ⟨f, h, hnone⟩]

/-- For an untagged rule, successful compilation yields exactly one
message per descriptor. -/
theorem collect_ok_length (env : Env) (imsi ip_addr : String)
    (apn_ambr : Option AggregatedMaximumBitrate) (rule_num priority : Nat)
    (qos : FlowQos) (ht : Nat) (rid : String) (ast : Nat) :
    ∀ (fs : List FlowDescription) (ms : List FlowMsg),
      collect_classify_msgs env imsi ip_addr apn_ambr rule_num priority
        qos ht rid 0 ast fs = .ok ms →
      ms.length = fs.length := by
  intro fs
  induction fs with
  | nil =>
    intro ms h
    unfold collect_classify_msgs at h
    simpa using (Except.ok.inj h).symm
  | cons g fs ih =>
    intro ms h
    unfold collect_classify_msgs at h
    cases hc : _get_classify_rule_flow_msgs env imsi ip_addr apn_ambr g
      rule_num priority qos ht rid 0 ast with
    | error e => rw [hc] at h; cases h
    | ok m1 =>
      rw [hc] at h
      cases hr : collect_classify_msgs env imsi ip_addr apn_ambr rule_num
        priority qos ht rid 0 ast fs with
      | error e => rw [hr] at h; cases h
      | ok rest =>
        rw [hr] at h
        have hms : m1 ++ rest = ms := Except.ok.inj h
        obtain ⟨d, hd⟩ := classify_fields_some_of_ok env imsi ip_addr
          apn_ambr g rule_num priority qos ht rid 0 ast m1 hc
        obtain ⟨m1', hm1', hlen⟩ := classify_ok_of_some env imsi ip_addr
          apn_ambr g rule_num priority qos ht rid 0 ast d hd
        rw [hc] at hm1'
        have : m1 = m1' := Except.ok.inj hm1'
        subst this
        subst hms
        simp at hlen
        simp [hlen, ih rest hr]
        omega

/-- The acknowledgement loop consumes exactly one channel outcome per
iteration while the outcomes are positive. -/
theorem wait_loop_all_ok (env : Env) (imsi : String) (rule : PolicyRule) :
    ∀ (oks rest : List ChanOutcome),
      (∀ c ∈ oks, c = ChanOutcome.ackOk) →
      wait_loop env imsi rule oks.length (oks ++ rest) =
        .ok (RuleModResult.SUCCESS, rest, []) := by
  intro oks
  induction oks with
  | nil => intro rest _; rfl
  | cons c cs ih =>
    intro rest h
    have hc : c = ChanOutcome.ackOk := h c (by simp)
    subst hc
    simpa [wait_loop] using ih rest (fun c hc => h c (by simp [hc]))

/-- The redirect request `_install_redirect_flow` builds for a rule. -/
def redirectReq (env : Env) (imsi ip_addr : String) (rule : PolicyRule) :
    RedirectRequest :=
  ⟨imsi, ip_addr, rule, env.get_or_create_rule_num rule.id,
   env.get_version imsi ip_addr rule.id, get_of_priority rule.priority⟩

/-- A rule whose single descriptor has a malformed match. -/
def rule_bad : PolicyRule :=
  ⟨"rb", 10, [flow_bad], qos₀, 0, 0, 0, ⟨false⟩⟩

/-- A redirect-enabled rule. -/
def rule_rd : PolicyRule :=
  ⟨"r1", 10, [], qos₀, 0, 0, 0, ⟨true⟩⟩

/-! ### Claim theorems -/

/-- C3: for every non-negative precedence `p`, `get_of_priority p` lies in
`[MIN_ENFORCE_PROGRAMMED_FLOW, MAX_ENFORCE_PRIORITY]`; below
`ENFORCE_PRIORITY_RANGE` it equals `MAX_ENFORCE_PRIORITY - p`, and at or
above that range it equals `MIN_ENFORCE_PROGRAMMED_FLOW` exactly. -/
theorem get_of_priority_total_and_exact (p : Nat) :
    MIN_ENFORCE_PROGRAMMED_FLOW ≤ get_of_priority p ∧
    get_of_priority p ≤ MAX_ENFORCE_PRIORITY ∧
    (p < ENFORCE_PRIORITY_RANGE →
      get_of_priority p = MAX_ENFORCE_PRIORITY - p) ∧
    (ENFORCE_PRIORITY_RANGE ≤ p →
      get_of_priority p = MIN_ENFORCE_PROGRAMMED_FLOW) := by
  simp only [get_of_priority, MIN_ENFORCE_PROGRAMMED_FLOW,
    MAX_ENFORCE_PRIORITY, ENFORCE_PRIORITY_RANGE,
    UNCLASSIFIED_ALLOW_PRIORITY, ENFORCE_DROP_PRIORITY, MINIMUM_PRIORITY,
    MAXIMUM_PRIORITY]
  split <;> omega

/-- C3 witness: the mapping at an in-range and an out-of-range input. -/
theorem get_of_priority_total_and_exact_witness :
    get_of_priority 10 = MAX_ENFORCE_PRIORITY - 10 ∧
    get_of_priority 70000 = MIN_ENFORCE_PROGRAMMED_FLOW :=
  ⟨(get_of_priority_total_and_exact 10).2.2.1 (by decide),
   (get_of_priority_total_and_exact 70000).2.2.2 (by decide)⟩

/-- C1: the claim matches the code's evident intent but the code is
broken.  On the first negative acknowledgement or timeout the `fail`
closure of `_wait_for_rule_responses` calls
`self._deactivate_flow_for_rule(imsi, rule.id)` with two positional
arguments, while the method (line 430) declares three (`imsi`,
`ip_addr`, `rule_id`); both failure paths therefore raise `TypeError`
instead of rolling back and returning `FAILURE`.  The third conjunct
shows the same call with the declared arity would have performed the
rollback. -/
theorem install_rollback_call_raises_type_error :
    _install_flow_for_rule env₀ "IMSI001" "10.0.0.5" none rule₁
        [ChanOutcome.ackError "err"]
      = Except.error (PyError.typeError "_deactivate_flow_for_rule") ∧
    _install_flow_for_rule env₀ "IMSI001" "10.0.0.5" none rule₁
        [ChanOutcome.timeout]
      = Except.error (PyError.typeError "_deactivate_flow_for_rule") ∧
    call_deactivate_flow_for_rule env₀
        [PyVal.str "IMSI001", PyVal.str "10.0.0.5", PyVal.str "r1"]
      = Except.ok (_deactivate_flow_for_rule env₀ "IMSI001" "10.0.0.5" "r1") :=
  ⟨by decide, by decide, rfl⟩

/-- C2 counterexample: `rule₂` carries an app tag, so its single ALLOW
descriptor compiles into two program requests, yet the sequencer loops
`len(rule.flow_list)` = 1 time: with channel outcomes
[positive, negative] it finishes with `SUCCESS`, leaving the negative
acknowledgement of the second submitted request unconsumed. -/
theorem sequencer_ack_count_counterexample :
    (_get_rule_match_flow_msgs env₀ "IMSI001" "10.0.0.5" none
      rule₂).toOption.map List.length = some 2 ∧
    rule₂.flow_list.length = 1 ∧
    _wait_for_rule_responses env₀ "IMSI001" rule₂
        [ChanOutcome.ackOk, ChanOutcome.ackError "err"]
      = .ok (RuleModResult.SUCCESS, [ChanOutcome.ackError "err"], []) ∧
    (_install_flow_for_rule env₀ "IMSI001" "10.0.0.5" none rule₂
        [ChanOutcome.ackOk, ChanOutcome.ackError "err"]).toOption.map
      (fun r => (r.result, r.sent.length))
      = some (RuleModResult.SUCCESS, 2) :=
  ⟨by decide, by decide, by decide, by decide⟩

/-- C2 (amended): the sequencer waits for exactly one acknowledgement per
flow descriptor — `len(rule.flow_list)` in total, each `chan.get()`
bounded by a timeout; for rules without an app-classification tag this
equals the number of submitted requests, while app-tagged rules submit
two requests per descriptor but still await only one acknowledgement
each. -/
theorem sequencer_awaits_one_ack_per_descriptor (env : Env)
    (imsi ip_addr : String) (apn_ambr : Option AggregatedMaximumBitrate)
    (rule : PolicyRule) (oks rest : List ChanOutcome)
    (hoks : ∀ c ∈ oks, c = ChanOutcome.ackOk)
    (hlen : oks.length = rule.flow_list.length) :
    _wait_for_rule_responses env imsi rule (oks ++ rest) =
      .ok (RuleModResult.SUCCESS, rest, []) ∧
    (rule.app_name = 0 → ∀ ms,
      _get_rule_match_flow_msgs env imsi ip_addr apn_ambr rule = .ok ms →
      ms.length = rule.flow_list.length) := by
  constructor
  · unfold _wait_for_rule_responses
    rw [← hlen]
    exact wait_loop_all_ok env imsi rule oks rest hoks
  · intro ha ms h
    unfold _get_rule_match_flow_msgs at h
    rw [ha] at h
    exact collect_ok_length env imsi ip_addr apn_ambr _ _ rule.qos _
      rule.id rule.app_service_type rule.flow_list ms h

/-- C2 witness: one positive acknowledgement completes a one-descriptor
rule; a later outcome is left on the channel. -/
theorem sequencer_awaits_one_ack_per_descriptor_witness :
    _wait_for_rule_responses env₀ "IMSI001" rule₁
        ([ChanOutcome.ackOk] ++ [ChanOutcome.ackError "e"]) =
      .ok (RuleModResult.SUCCESS, [ChanOutcome.ackError "e"], []) :=
  (sequencer_awaits_one_ack_per_descriptor env₀ "IMSI001" "10.0.0.5" none
    rule₁ [ChanOutcome.ackOk] [ChanOutcome.ackError "e"]
    (by decide) (by decide)).1

/-- C4 counterexample: with the engine not initialized,
`deactivate_rules` returns `RuleModResult.FAILURE` — a protocol-level
failure outcome — unlike the bare `None` of the no-datapath branch, so
the violation is distinguishable from a not-applicable no-op. -/
theorem deactivate_uninitialized_failure_counterexample :
    deactivate_rules env₀ false true "IMSI001" "10.0.0.5" []
      = (some RuleModResult.FAILURE,
         [Effect.logError "Pipelined is not initialized"]) ∧
    deactivate_rules env₀ true false "IMSI001" "10.0.0.5" []
      = (none, [Effect.logError "Datapath not initialized"]) :=
  ⟨by decide, by decide⟩

/-- C4 (amended): every precondition violation aborts before any device
interaction, producing only a single log line and no flow deletion or
collaborator cleanup; the no-datapath and empty-subscriber violations
return nothing, but the not-initialized violation returns
`RuleModResult.FAILURE` to the caller. -/
theorem deactivate_rules_precondition_behaviour (env : Env)
    (init dp : Bool) (imsi ip_addr : String) (ids : List String)
    (h : init = false ∨ dp = false ∨ imsi = "") :
    (∃ m, (deactivate_rules env init dp imsi ip_addr ids).2 =
      [Effect.logError m]) ∧
    (deactivate_rules env init dp imsi ip_addr ids).1 =
      (if init then none else some RuleModResult.FAILURE) := by
  unfold deactivate_rules
  rcases h with h | h | h
  · subst h; simp
  · subst h
    cases init <;> simp
  · subst h
    cases init <;> cases dp <;> simp

/-- C4 witness: the empty-subscriber violation yields a log line and no
result. -/
theorem deactivate_rules_precondition_behaviour_witness :
    (∃ m, (deactivate_rules env₀ true true "" "10.0.0.5" ["r1"]).2 =
      [Effect.logError m]) ∧
    (deactivate_rules env₀ true true "" "10.0.0.5" ["r1"]).1 =
      (if true then none else some RuleModResult.FAILURE) :=
  deactivate_rules_precondition_behaviour env₀ true true "" "10.0.0.5"
    ["r1"] (Or.inr (Or.inr rfl))

/-- C5: for a non-redirect rule whose compilation fails — empty
flow-descriptor list, or a `FlowMatchError` on any descriptor — the
activation returns `FAILURE`, dispatches no program request to the
device, and produces at most log output. -/
theorem compile_failure_no_dispatch (env : Env) (imsi ip_addr : String)
    (apn_ambr : Option AggregatedMaximumBitrate) (rule : PolicyRule)
    (chan : List ChanOutcome)
    (hr : rule.redirect.support_enabled = false)
    (h : rule.flow_list = [] ∨
      ∃ f ∈ rule.flow_list, f.«match».fields = none) :
    ∃ effs, _install_flow_for_rule env imsi ip_addr apn_ambr rule chan =
        .ok ⟨RuleModResult.FAILURE, [], effs⟩ ∧
      ∀ e ∈ effs, ∃ m, e = Effect.logError m := by
  rcases h with h | h
  · refine ⟨[Effect.logError "The flow list is empty"], ?_, by simp⟩
    simp [_install_flow_for_rule, hr, h]
  · obtain ⟨f, hf, -⟩ := id h
    have hne : rule.flow_list ≠ [] := List.ne_nil_of_mem hf
    have hcol : _get_rule_match_flow_msgs env imsi ip_addr apn_ambr rule =
        .error PyError.flowMatchError := by
      unfold _get_rule_match_flow_msgs
      exact collect_error_of_mem env imsi ip_addr apn_ambr _ _ rule.qos _
        rule.id rule.app_name rule.app_service_type rule.flow_list h
    refine ⟨[], ?_, by simp⟩
    simp [_install_flow_for_rule, hr, hne, hcol]

/-- C5 witness: a rule with one malformed descriptor fails with nothing
dispatched. -/
theorem compile_failure_no_dispatch_witness :
    ∃ effs, _install_flow_for_rule env₀ "IMSI001" "10.0.0.5" none rule_bad
        [] = .ok ⟨RuleModResult.FAILURE, [], effs⟩ ∧
      ∀ e ∈ effs, ∃ m, e = Effect.logError m :=
  compile_failure_no_dispatch env₀ "IMSI001" "10.0.0.5" none rule_bad []
    rfl (Or.inr ⟨flow_bad, by decide, rfl⟩)

/-- C6: a redirect-enabled rule builds zero local flow programs and
invokes the redirect delegate exactly once with the full context
(subscriber, IP, rule, rule number, rule version, computed priority);
the result is `FAILURE` exactly when the delegate raises, else
`SUCCESS`, and flow compilation is never attempted. -/
theorem redirect_rule_delegates_once (env : Env) (imsi ip_addr : String)
    (apn_ambr : Option AggregatedMaximumBitrate) (rule : PolicyRule)
    (chan : List ChanOutcome)
    (hr : rule.redirect.support_enabled = true) :
    _install_flow_for_rule env imsi ip_addr apn_ambr rule chan =
      .ok ⟨(if env.redirect_raises (redirectReq env imsi ip_addr rule)
            then RuleModResult.FAILURE else RuleModResult.SUCCESS),
        [],
        (if env.redirect_raises (redirectReq env imsi ip_addr rule)
         then [Effect.redirectCall (redirectReq env imsi ip_addr rule),
               Effect.logError "Redirect Exception"]
         else [Effect.redirectCall (redirectReq env imsi ip_addr rule)])⟩ := by
  unfold _install_flow_for_rule _install_redirect_flow redirectReq
  rw [hr]
  by_cases hraise : env.redirect_raises
      ⟨imsi, ip_addr, rule, env.get_or_create_rule_num rule.id,
       env.get_version imsi ip_addr rule.id,
       get_of_priority rule.priority⟩ <;>
    simp [hraise]

/-- C6 witness: a concrete redirect rule whose delegate succeeds. -/
theorem redirect_rule_delegates_once_witness :
    _install_flow_for_rule env₀ "IMSI001" "10.0.0.5" none rule_rd [] =
      .ok ⟨RuleModResult.SUCCESS, [],
        [Effect.redirectCall (redirectReq env₀ "IMSI001" "10.0.0.5"
          rule_rd)]⟩ := by
  rw [redirect_rule_delegates_once env₀ "IMSI001" "10.0.0.5" none rule_rd
    [] rfl]
  decide

/-- C7 counterexample: a DENY descriptor under an app-tagged rule
generates two programs; the first is not a drop flow and its action list
has a second action (the ignore-stats register load) beyond the rule-id
note. -/
theorem deny_program_shape_counterexample :
    ((_get_classify_rule_flow_msgs env₀ "IMSI001" "10.0.0.5" none
      flow_deny 8 65525 qos₀ 0 "r1" 1 0).toOption.map
      (fun ms => (ms.length, ms.map isDropMsg,
        ms.map (fun m => (msgActions m).length))))
      = some (2, [false, true], [2, 1]) := by
  decide

/-- C7 (amended): for every DENY descriptor the resolved actions are
exactly the rule-id note with an empty instruction list (no register
loads, no QoS actions), and for a rule without an app tag the
descriptor's sole generated program is a drop flow carrying exactly that
note; an app-tagged rule additionally emits a passthrough program before
the drop. -/
theorem deny_flow_drop_with_note_only (env : Env) (imsi ip_addr : String)
    (apn_ambr : Option AggregatedMaximumBitrate) (flow : FlowDescription)
    (rule_num priority : Nat) (qos : FlowQos) (ht : Nat) (rid : String)
    (ast : Nat) (d : Nat)
    (hd : flow.action = FlowAction.DENY)
    (hf : flow.«match».fields = some d) :
    _get_classify_rule_of_actions env flow rule_num imsi ip_addr apn_ambr
        qos rid
      = ([OFAction.note (rid.toList.map Char.toNat)], []) ∧
    _get_classify_rule_flow_msgs env imsi ip_addr apn_ambr flow rule_num
        priority qos ht rid 0 ast
      = .ok [FlowMsg.addDrop env.tbl_num
          { fields := d, ip_addr := ip_addr,
            direction := flow.«match».direction,
            imsi := some (encode_imsi imsi), app_id := none }
          [OFAction.note (rid.toList.map Char.toNat)] ht priority
          rule_num] := by
  have hacts : _get_classify_rule_of_actions env flow rule_num imsi
      ip_addr apn_ambr qos rid
      = ([OFAction.note (rid.toList.map Char.toNat)], []) := by
    unfold _get_classify_rule_of_actions
    rw [hd]
    simp
  refine ⟨hacts, ?_⟩
  unfold _get_classify_rule_flow_msgs flow_match_to_magma_match
  rw [hf]
  simp [hacts, hd]

/-- C7 witness: the DENY branch at a concrete descriptor. -/
theorem deny_flow_drop_with_note_only_witness :
    _get_classify_rule_of_actions env₀ flow_deny 8 "IMSI001" "10.0.0.5"
        none qos₀ "r1"
      = ([OFAction.note ("r1".toList.map Char.toNat)], []) ∧
    _get_classify_rule_flow_msgs env₀ "IMSI001" "10.0.0.5" none flow_deny
        8 65525 qos₀ 0 "r1" 0 0
      = .ok [FlowMsg.addDrop env₀.tbl_num
          { fields := 42, ip_addr := "10.0.0.5",
            direction := flow_deny.«match».direction,
            imsi := some (encode_imsi "IMSI001"), app_id := none }
          [OFAction.note ("r1".toList.map Char.toNat)] 0 65525 8] :=
  deny_flow_drop_with_note_only env₀ "IMSI001" "10.0.0.5" none flow_deny
    8 65525 qos₀ 0 "r1" 0 42 rfl rfl

/-- C8: for an app-tagged rule, a non-DENY descriptor compiles into
exactly two programs: a passthrough at `UNCLASSIFIED_ALLOW_PRIORITY`
matching the placeholder app id, whose actions append the ignore-stats
register load, and a primary at the priority computed from the rule's
precedence matching the resolved app id. -/
theorem app_tagged_flow_two_programs (env : Env) (imsi ip_addr : String)
    (apn_ambr : Option AggregatedMaximumBitrate) (flow : FlowDescription)
    (rule_num prec : Nat) (qos : FlowQos) (ht : Nat) (rid : String)
    (an ast : Nat) (d : Nat)
    (ha : an ≠ 0) (hd : flow.action ≠ FlowAction.DENY)
    (hf : flow.«match».fields = some d) :
    _get_classify_rule_flow_msgs env imsi ip_addr apn_ambr flow rule_num
        (get_of_priority prec) qos ht rid an ast
      = .ok [
        FlowMsg.addResubmit env.tbl_num
          { fields := d, ip_addr := ip_addr,
            direction := flow.«match».direction,
            imsi := some (encode_imsi imsi),
            app_id := some UNCLASSIFIED_PROTO_ID }
          ((_get_classify_rule_of_actions env flow rule_num imsi ip_addr
              apn_ambr qos rid).1
            ++ [OFAction.regLoad SCRATCH_REG_1 IGNORE_STATS])
          [] ht UNCLASSIFIED_ALLOW_PRIORITY rule_num
          env.enforcement_stats_scratch,
        FlowMsg.addResubmit env.tbl_num
          { fields := d, ip_addr := ip_addr,
            direction := flow.«match».direction,
            imsi := some (encode_imsi imsi),
            app_id := some (env.get_app_id an ast) }
          (_get_classify_rule_of_actions env flow rule_num imsi ip_addr
              apn_ambr qos rid).1
          (_get_classify_rule_of_actions env flow rule_num imsi ip_addr
              apn_ambr qos rid).2
          ht (get_of_priority prec) rule_num
          env.enforcement_stats_scratch] := by
  unfold _get_classify_rule_flow_msgs flow_match_to_magma_match
  rw [hf]
  simp [ha, hd]

/-- C8 witness: the two programs at a concrete app-tagged descriptor. -/
theorem app_tagged_flow_two_programs_witness :
    _get_classify_rule_flow_msgs env₀ "IMSI001" "10.0.0.5" none
        flow_allow 8 (get_of_priority 10) qos₀ 0 "r1" 1 0
      = .ok [
        FlowMsg.addResubmit env₀.tbl_num
          { fields := 42, ip_addr := "10.0.0.5",
            direction := flow_allow.«match».direction,
            imsi := some (encode_imsi "IMSI001"),
            app_id := some UNCLASSIFIED_PROTO_ID }
          ((_get_classify_rule_of_actions env₀ flow_allow 8 "IMSI001"
              "10.0.0.5" none qos₀ "r1").1
            ++ [OFAction.regLoad SCRATCH_REG_1 IGNORE_STATS])
          [] 0 UNCLASSIFIED_ALLOW_PRIORITY 8
          env₀.enforcement_stats_scratch,
        FlowMsg.addResubmit env₀.tbl_num
          { fields := 42, ip_addr := "10.0.0.5",
            direction := flow_allow.«match».direction,
            imsi := some (encode_imsi "IMSI001"),
            app_id := some (env₀.get_app_id 1 0) }
          (_get_classify_rule_of_actions env₀ flow_allow 8 "IMSI001"
              "10.0.0.5" none qos₀ "r1").1
          (_get_classify_rule_of_actions env₀ flow_allow 8 "IMSI001"
              "10.0.0.5" none qos₀ "r1").2
          0 (get_of_priority 10) 8 env₀.enforcement_stats_scratch] :=
  app_tagged_flow_two_programs env₀ "IMSI001" "10.0.0.5" none flow_allow
    8 10 qos₀ 0 "r1" 1 0 42 (by decide) (by decide) rfl

/-- C9: with all preconditions met and an empty rule-id list,
`deactivate_rules` removes all programs of the (subscriber, session IP)
pair by match in both directions and delegates session-wide cleanup to
the redirect and QoS collaborators. -/
theorem deactivate_rules_empty_ids_cleans_session (env : Env)
    (imsi ip_addr : String) (h : imsi ≠ "") :
    deactivate_rules env true true imsi ip_addr [] =
      (none,
       [Effect.deleteFlow env.tbl_num
          ⟨true, encode_imsi imsi, ip_addr, Direction.IN⟩,
        Effect.deleteFlow env.tbl_num
          ⟨true, encode_imsi imsi, ip_addr, Direction.OUT⟩,
        Effect.redirectDeactivateSubscriber imsi,
        Effect.qosRemoveSubscriber imsi]) := by
  unfold deactivate_rules _deactivate_flows_for_subscriber
  simp [h]

/-- C9 witness: session-wide cleanup at a concrete subscriber. -/
theorem deactivate_rules_empty_ids_cleans_session_witness :
    deactivate_rules env₀ true true "IMSI001" "10.0.0.5" [] =
      (none,
       [Effect.deleteFlow env₀.tbl_num
          ⟨true, encode_imsi "IMSI001", "10.0.0.5", Direction.IN⟩,
        Effect.deleteFlow env₀.tbl_num
          ⟨true, encode_imsi "IMSI001", "10.0.0.5", Direction.OUT⟩,
        Effect.redirectDeactivateSubscriber "IMSI001",
        Effect.qosRemoveSubscriber "IMSI001"]) :=
  deactivate_rules_empty_ids_cleans_session env₀ "IMSI001" "10.0.0.5"
    (by decide)

/-- C10: a meter-configuration-stats or meter-features-stats event is
silently dropped — no delegation, no error, state unchanged — whenever no
QoS manager is bound, the bound implementation is absent, or it is not
the meter-based implementation. -/
theorem meter_stats_dropped_without_meter_manager (qos_mgr : Option QosMgr)
    (body : Nat)
    (h : qos_mgr = none ∨ ∃ m, qos_mgr = some m ∧
      (m.impl = none ∨ ∃ i, m.impl = some i ∧ i.isMeterManager = false)) :
    meter_config_stats_reply_handler qos_mgr body = (qos_mgr, none) ∧
    meter_features_stats_reply_handler qos_mgr body = (qos_mgr, none) := by
  rcases h with h | ⟨m, hm, h⟩
  · subst h; exact ⟨rfl, rfl⟩
  · subst hm
    rcases h with h | ⟨i, hi, hmeter⟩
    · simp [meter_config_stats_reply_handler,
        meter_features_stats_reply_handler, h]
    · simp [meter_config_stats_reply_handler,
        meter_features_stats_reply_handler, hi, hmeter]

/-- C10 witness: a bound non-meter implementation drops both events. -/
theorem meter_stats_dropped_without_meter_manager_witness :
    meter_config_stats_reply_handler (some ⟨some ⟨false⟩⟩) 7 =
      (some ⟨some ⟨false⟩⟩, none) ∧
    meter_features_stats_reply_handler (some ⟨some ⟨false⟩⟩) 7 =
      (some ⟨some ⟨false⟩⟩, none) :=
  meter_stats_dropped_without_meter_manager (some ⟨some ⟨false⟩⟩) 7
    (Or.inr ⟨⟨some ⟨false⟩⟩, rfl, Or.inr ⟨⟨false⟩, rfl, rfl⟩⟩)

end Enforcement

